import Mathlib

/-!
Verification of the flowise-mcp-server tool-adapter layer.

The development shallowly embeds the two source files that carry logic:
`src/flowise-api.ts` (the transport client) and `src/handlers.ts` (the
twelve tool dispatchers).  JavaScript objects that cross the wire are
modelled by a first-order JSON value type; `JSON.stringify` (both the
compact form used for request bodies and the 2-space-indented form used
for tool-response texts) is modelled after the ECMAScript serialization
algorithm; `encodeURIComponent` is modelled after its ECMAScript
definition (UTF-8 bytes, unreserved set A-Z a-z 0-9 - _ . ! ~ * ( ) and
the apostrophe).  Handlers are embedded as pure functions that take the
downstream client as a function argument: a thrown error is modelled as
an `Except.error` carrying the error message, mirroring the
`error instanceof Error ? error.message : String(error)` normalization
in every catch block.
-/

-- JSON values (mutually inductive so that all recursions below are
-- structural and kernel-reducible).  `obj` keeps fields in insertion
-- order, as JavaScript object literals do for string keys.
mutual
inductive Json where
  | null : Json
  | bool : Bool → Json
  | num : Int → Json
  | str : String → Json
  | arr : JsonArr → Json
  | obj : JsonObj → Json
deriving Repr
inductive JsonArr where
  | nil : JsonArr
  | cons : Json → JsonArr → JsonArr
deriving Repr
inductive JsonObj where
  | nil : JsonObj
  | cons : String → Json → JsonObj → JsonObj
deriving Repr
end

/-- Hexadecimal digit characters, uppercase, as `encodeURIComponent`
and `\u00XX` escapes produce them. -/
def hexDigit (n : Nat) : Char :=
  if n < 10 then Char.ofNat (48 + n) else Char.ofNat (55 + n)

/-- Characters that JSON string serialization must escape:
the quote (34), the backslash (92) and the control range below 0x20. -/
def needsEscape (c : Char) : Bool :=
  c.toNat < 32 || c.toNat == 34 || c.toNat == 92

/-- One character of a JSON string body, escaped as the ECMAScript
QuoteJSONString operation does. -/
def escChar (c : Char) : String :=
  if c.toNat == 34 then "\\\""
  else if c.toNat == 92 then "\\\\"
  else if c.toNat == 8 then "\\b"
  else if c.toNat == 12 then "\\f"
  else if c.toNat == 10 then "\\n"
  else if c.toNat == 13 then "\\r"
  else if c.toNat == 9 then "\\t"
  else if c.toNat < 32 then
    "\\u00" ++ String.mk [hexDigit (c.toNat / 16), hexDigit (c.toNat % 16)]
  else String.singleton c

/-- Escape a list of characters for a JSON string literal. -/
def escList : List Char → String
  | [] => ""
  | c :: cs => escChar c ++ escList cs

/-- `QuoteJSONString`: the JSON string literal for `s`. -/
def quoteStr (s : String) : String :=
  "\"" ++ escList s.data ++ "\""

/-- Emptiness test for a JSON array value. -/
def JsonArr.isNil : JsonArr → Bool
  | .nil => true
  | .cons _ _ => false

/-- Emptiness test for a JSON object value. -/
def JsonObj.isNil : JsonObj → Bool
  | .nil => true
  | .cons _ _ _ => false

/-- Concatenation of two field lists (used to model an object built
by a sequence of conditional property assignments). -/
def JsonObj.append : JsonObj → JsonObj → JsonObj
  | .nil, o => o
  | .cons k v rest, o => .cons k v (rest.append o)

/-- The value stored under a key, if any (first match wins). -/
def JsonObj.lookup : JsonObj → String → Option Json
  | .nil, _ => none
  | .cons k v rest, key => if k == key then some v else rest.lookup key

/-- The keys of an object, in insertion order. -/
def JsonObj.keys : JsonObj → List String
  | .nil => []
  | .cons k _ rest => k :: rest.keys

-- Compact `JSON.stringify` (no space argument), as used for HTTP
-- request bodies by the transport client and when the handlers embed
-- `flowData` / `chatbotConfig` as strings.  Elements are rendered in
-- order and joined with "," exactly as the ECMAScript algorithm does
-- with an empty gap.
mutual
def Json.stringifyCompact : Json → String
  | .null => "null"
  | .bool true => "true"
  | .bool false => "false"
  | .num n => toString n
  | .str s => quoteStr s
  | .arr a => "[" ++ JsonArr.compactElems a ++ "]"
  | .obj o => "\x7b" ++ JsonObj.compactFields o ++ "\x7d"
termination_by structural v => v
def JsonArr.compactElems : JsonArr → String
  | .nil => ""
  | .cons v rest => Json.stringifyCompact v ++ JsonArr.compactMore rest
termination_by structural a => a
def JsonArr.compactMore : JsonArr → String
  | .nil => ""
  | .cons v rest => "," ++ Json.stringifyCompact v ++ JsonArr.compactMore rest
termination_by structural a => a
def JsonObj.compactFields : JsonObj → String
  | .nil => ""
  | .cons k v rest => quoteStr k ++ ":" ++ Json.stringifyCompact v ++ JsonObj.compactMore rest
termination_by structural o => o
def JsonObj.compactMore : JsonObj → String
  | .nil => ""
  | .cons k v rest => "," ++ quoteStr k ++ ":" ++ Json.stringifyCompact v ++ JsonObj.compactMore rest
termination_by structural o => o
end

-- `JSON.stringify(data, null, 2)`: the ECMAScript serialization
-- algorithm with gap two spaces; `ind` is the indentation accumulated
-- so far.  Members are each prefixed with the deeper indentation and
-- joined with ",\n".
mutual
def Json.render : Json → String → String
  | .null, _ => "null"
  | .bool true, _ => "true"
  | .bool false, _ => "false"
  | .num n, _ => toString n
  | .str s, _ => quoteStr s
  | .arr a, ind =>
      if a.isNil then "[]"
      else "[\n" ++ JsonArr.renderElems a (ind ++ "  ") ++ "\n" ++ ind ++ "]"
  | .obj o, ind =>
      if o.isNil then "\x7b\x7d"
      else "\x7b\n" ++ JsonObj.renderFields o (ind ++ "  ") ++ "\n" ++ ind ++ "\x7d"
termination_by structural v => v
def JsonArr.renderElems : JsonArr → String → String
  | .nil, _ => ""
  | .cons v rest, ind => ind ++ Json.render v ind ++ JsonArr.renderMore rest ind
termination_by structural a => a
def JsonArr.renderMore : JsonArr → String → String
  | .nil, _ => ""
  | .cons v rest, ind => ",\n" ++ ind ++ Json.render v ind ++ JsonArr.renderMore rest ind
termination_by structural a => a
def JsonObj.renderFields : JsonObj → String → String
  | .nil, _ => ""
  | .cons k v rest, ind =>
      ind ++ quoteStr k ++ ": " ++ Json.render v ind ++ JsonObj.renderMore rest ind
termination_by structural o => o
def JsonObj.renderMore : JsonObj → String → String
  | .nil, _ => ""
  | .cons k v rest, ind =>
      ",\n" ++ ind ++ quoteStr k ++ ": " ++ Json.render v ind ++ JsonObj.renderMore rest ind
termination_by structural o => o
end

/-- Pretty `JSON.stringify(data, null, 2)` at top level. -/
def Json.stringifyPretty2 (v : Json) : String := Json.render v ""

/-- JavaScript `ToBoolean` on strings: every string other than the
empty string is truthy. -/
def strTruthy (s : String) : Bool := !(s == "")

/-- JavaScript `ToBoolean` on JSON-representable values: `null`,
`false`, `0` and `""` are falsy, everything else (in particular every
object and every array) is truthy. -/
def Json.truthy : Json → Bool
  | .null => false
  | .bool b => b
  | .num n => !(n == 0)
  | .str s => strTruthy s
  | .arr _ => true
  | .obj _ => true

/-- UTF-8 encoding of one Unicode scalar value, as a list of byte
values; `encodeURIComponent` percent-encodes byte by byte. -/
def utf8Bytes (c : Char) : List Nat :=
  let n := c.toNat
  if n < 128 then [n]
  else if n < 2048 then [192 + n / 64, 128 + n % 64]
  else if n < 65536 then [224 + n / 4096, 128 + (n / 64) % 64, 128 + n % 64]
  else [240 + n / 262144, 128 + (n / 4096) % 64, 128 + (n / 64) % 64, 128 + n % 64]

/-- The bytes `encodeURIComponent` leaves unescaped: ASCII letters,
digits, and `- . _ ~ ! * ( )` together with the apostrophe (byte 39). -/
def keepByte (b : Nat) : Bool :=
  (65 ≤ b && b ≤ 90) || (97 ≤ b && b ≤ 122) || (48 ≤ b && b ≤ 57) ||
  b == 45 || b == 46 || b == 95 || b == 126 || b == 33 || b == 42 ||
  b == 39 || b == 40 || b == 41

/-- Percent-encode a single byte unless it is in the unreserved set;
byte 37 is the percent sign. -/
def encodeByte (b : Nat) : List Char :=
  if keepByte b then [Char.ofNat b]
  else [Char.ofNat 37, hexDigit (b / 16), hexDigit (b % 16)]

/-- ECMAScript `encodeURIComponent`. -/
def encodeURIComponent (s : String) : String :=
  String.mk (s.data.flatMap fun c => (utf8Bytes c).flatMap encodeByte)

/-- Transport configuration (`FlowiseApiConfig` in `flowise-api.ts`):
`baseUrl` and `apiKey` read once from the environment.  An empty
`apiKey` is meaningful: it suppresses the credential header. -/
structure FlowiseApiConfig where
  baseUrl : String
  apiKey : String

/-- The observable content of the single `fetch` call the transport
client makes: URL, method, header list (in insertion order) and the
optional string body. -/
structure FetchRequest where
  method : String
  url : String
  headers : List (String × String)
  body : Option String

/-- The `fetch` invocation built by `request` in `flowise-api.ts`
(lines 25-43; `flowiseApi` in the standalone `index.ts` is
byte-for-byte the same logic): URL is `baseUrl ++ "/api/v1" ++
endpoint`; `Content-Type` is always set; `Authorization` is set only
when `apiKey` is truthy (i.e. a non-empty string); the body is
`JSON.stringify(body)` when the `body` argument is truthy and absent
otherwise (`body ? JSON.stringify(body) : undefined`). -/
def buildFetchRequest (config : FlowiseApiConfig) (method endpoint : String)
    (body : Option Json) : FetchRequest :=
  { method := method
  , url := config.baseUrl ++ "/api/v1" ++ endpoint
  , headers :=
      [("Content-Type", "application/json")] ++
      (if strTruthy config.apiKey
       then [("Authorization", "Bearer " ++ config.apiKey)]
       else [])
  , body :=
      match body with
      | some v => if v.truthy then some (Json.stringifyCompact v) else none
      | none => none }

/-- The HTTP response as the transport client observes it: the
`ok` flag, the status code, the body as text and the body as parsed
JSON (parsing is outside the embedded code). -/
structure HttpResponse where
  ok : Bool
  status : Nat
  text : String
  json : Json

/-- The result of `request` after the response arrives: a non-ok
status throws `Flowise API error ({status}): {text}`, an ok status
resolves with the parsed JSON body. -/
def requestOutcome (response : HttpResponse) : Except String Json :=
  if response.ok then Except.ok response.json
  else Except.error ("Flowise API error (" ++ toString response.status ++ "): " ++ response.text)

/-- One item of a tool response's `content` array. -/
structure ContentItem where
  type : String
  text : String
deriving Repr

/-- `ToolResponse` from `handlers.ts`: a content array and an optional
`isError` flag; `none` models the field being absent. -/
structure ToolResponse where
  content : List ContentItem
  isError : Option Bool
deriving Repr

/-- `successResponse` (handlers.ts lines 31-35): wraps the data as
pretty-printed JSON text in a single content item, with no `isError`
field. -/
def successResponse (data : Json) : ToolResponse :=
  { content := [{ type := "text", text := Json.stringifyPretty2 data }]
  , isError := none }

/-- `errorResponse` (handlers.ts lines 40-45): wraps the message as
plain text in a single content item and sets `isError` to true. -/
def errorResponse (message : String) : ToolResponse :=
  { content := [{ type := "text", text := message }]
  , isError := some true }

/-- One invocation of `api.request`: method, endpoint and optional
body, exactly the arguments the dispatcher hands to the transport
client. -/
structure ApiCall where
  method : String
  endpoint : String
  body : Option Json

/-- A history entry's `type`, schema-validated to one of the two
enum values. -/
inductive HistoryMessageType where
  | apiMessage : HistoryMessageType
  | userMessage : HistoryMessageType
deriving Repr

/-- One conversation-history entry. -/
structure HistoryMessage where
  message : String
  type : HistoryMessageType
deriving Repr

/-- One file-upload entry. -/
structure Upload where
  data : Option String
  type : String
  name : String
  mime : String
deriving Repr

/-- The full argument object of the SDK's `createPrediction`
(the `FlowiseSdkClient` interface in handlers.ts, lines 15-26);
`none` models an absent/undefined field. -/
structure PredictionParams where
  chatflowId : String
  question : String
  chatId : Option String
  overrideConfig : Option JsonObj
  streaming : Option Bool
  history : Option (List HistoryMessage)
  uploads : Option (List Upload)
  leadEmail : Option String
deriving Repr

/-- Parameters of the `create_prediction` tool. -/
structure CreatePredictionParams where
  chatflowId : String
  question : String
  chatId : Option String
  overrideConfig : Option JsonObj
deriving Repr

/-- Parameters of the `create_prediction_with_history` tool. -/
structure CreatePredictionWithHistoryParams where
  chatflowId : String
  question : String
  history : List HistoryMessage
  chatId : Option String
  overrideConfig : Option JsonObj
deriving Repr

/-- Parameters of the `create_prediction_with_files` tool. -/
structure CreatePredictionWithFilesParams where
  chatflowId : String
  question : String
  uploads : List Upload
  chatId : Option String
  overrideConfig : Option JsonObj
deriving Repr

/-- Parameters of the `create_prediction_with_lead` tool. -/
structure CreatePredictionWithLeadParams where
  chatflowId : String
  question : String
  leadEmail : String
  chatId : Option String
  overrideConfig : Option JsonObj
deriving Repr

/-- The argument object `{...params, streaming: false}` built by
`handleCreatePrediction`: the spread copies every field of the
schema-validated params (which cannot contain a `streaming` key), and
`streaming: false` is then set. -/
def createPredictionArgs (params : CreatePredictionParams) : PredictionParams :=
  { chatflowId := params.chatflowId
  , question := params.question
  , chatId := params.chatId
  , overrideConfig := params.overrideConfig
  , streaming := some false
  , history := none
  , uploads := none
  , leadEmail := none }

/-- The argument object built by `handleCreatePredictionWithHistory`. -/
def createPredictionWithHistoryArgs (params : CreatePredictionWithHistoryParams) : PredictionParams :=
  { chatflowId := params.chatflowId
  , question := params.question
  , chatId := params.chatId
  , overrideConfig := params.overrideConfig
  , streaming := some false
  , history := some params.history
  , uploads := none
  , leadEmail := none }

/-- The argument object built by `handleCreatePredictionWithFiles`. -/
def createPredictionWithFilesArgs (params : CreatePredictionWithFilesParams) : PredictionParams :=
  { chatflowId := params.chatflowId
  , question := params.question
  , chatId := params.chatId
  , overrideConfig := params.overrideConfig
  , streaming := some false
  , history := none
  , uploads := some params.uploads
  , leadEmail := none }

/-- The argument object built by `handleCreatePredictionWithLead`. -/
def createPredictionWithLeadArgs (params : CreatePredictionWithLeadParams) : PredictionParams :=
  { chatflowId := params.chatflowId
  , question := params.question
  , chatId := params.chatId
  , overrideConfig := params.overrideConfig
  , streaming := some false
  , history := none
  , uploads := none
  , leadEmail := some params.leadEmail }

/-- `handleCreatePrediction`: one `client.createPrediction` call; a
resolved value is wrapped by `successResponse`, a thrown error is
caught and wrapped by `errorResponse` with the fixed prefix.  The
downstream client is a function argument; `Except.error m` models a
throw whose normalized message is `m`. -/
def handleCreatePrediction (client : PredictionParams → Except String Json)
    (params : CreatePredictionParams) : ToolResponse :=
  match client (createPredictionArgs params) with
  | .ok response => successResponse response
  | .error message => errorResponse ("Error running chatflow: " ++ message)

/-- `handleCreatePredictionWithHistory`. -/
def handleCreatePredictionWithHistory (client : PredictionParams → Except String Json)
    (params : CreatePredictionWithHistoryParams) : ToolResponse :=
  match client (createPredictionWithHistoryArgs params) with
  | .ok response => successResponse response
  | .error message => errorResponse ("Error running chatflow: " ++ message)

/-- `handleCreatePredictionWithFiles`. -/
def handleCreatePredictionWithFiles (client : PredictionParams → Except String Json)
    (params : CreatePredictionWithFilesParams) : ToolResponse :=
  match client (createPredictionWithFilesArgs params) with
  | .ok response => successResponse response
  | .error message => errorResponse ("Error running chatflow: " ++ message)

/-- `handleCreatePredictionWithLead`. -/
def handleCreatePredictionWithLead (client : PredictionParams → Except String Json)
    (params : CreatePredictionWithLeadParams) : ToolResponse :=
  match client (createPredictionWithLeadArgs params) with
  | .ok response => successResponse response
  | .error message => errorResponse ("Error running chatflow: " ++ message)

/-- `flowData` as validated by the schema: an object with `nodes` and
`edges` arrays. -/
structure FlowData where
  nodes : JsonArr
  edges : JsonArr
deriving Repr

/-- The JSON object a `FlowData` value denotes. -/
def FlowData.toJson (fd : FlowData) : Json :=
  Json.obj (.cons "nodes" (.arr fd.nodes) (.cons "edges" (.arr fd.edges) .nil))

/-- The chatflow `type` enum. -/
inductive ChatflowType where
  | CHATFLOW : ChatflowType
  | AGENTFLOW : ChatflowType
  | MULTIAGENT : ChatflowType
  | ASSISTANT : ChatflowType
deriving Repr

/-- The string value of a chatflow type. -/
def ChatflowType.toStr : ChatflowType → String
  | .CHATFLOW => "CHATFLOW"
  | .AGENTFLOW => "AGENTFLOW"
  | .MULTIAGENT => "MULTIAGENT"
  | .ASSISTANT => "ASSISTANT"

/-- Parameters of the `create_chatflow` tool. -/
structure CreateChatflowParams where
  name : String
  flowData : FlowData
  type : Option ChatflowType
  chatbotConfig : Option JsonObj
deriving Repr

/-- The POST payload object built by `handleCreateChatflow` (lines
190-197): `flowData` is embedded as a compact JSON string; `type` is
`params.type || "CHATFLOW"` (every enum value is a non-empty, hence
truthy, string, so a present type wins and an absent one falls back);
`chatbotConfig` is embedded as a JSON string when present, and set to
`undefined` otherwise — a property whose value is `undefined` is
dropped by `JSON.stringify`, so the serialized payload simply lacks
the key, which the object model expresses by omitting the field. -/
def createChatflowPayload (params : CreateChatflowParams) : JsonObj :=
  .cons "name" (.str params.name)
    (.cons "flowData" (.str (Json.stringifyCompact params.flowData.toJson))
      (.cons "type"
        (.str (match params.type with
               | some t => t.toStr
               | none => "CHATFLOW"))
        (match params.chatbotConfig with
         | some c => .cons "chatbotConfig" (.str (Json.stringifyCompact (Json.obj c))) .nil
         | none => .nil)))

/-- Parameters of the `update_chatflow` tool. -/
structure UpdateChatflowParams where
  chatflowId : String
  name : Option String
  flowData : Option FlowData
  chatbotConfig : Option JsonObj
deriving Repr

/-- The PUT payload built by `handleUpdateChatflow` (lines 218-222):
an object assembled by three truthiness-guarded assignments,
`if (params.name) ...`, `if (params.flowData) ...`,
`if (params.chatbotConfig) ...`.  An absent (undefined) value is
falsy and skipped; a present string is truthy exactly when non-empty;
a present object is always truthy. -/
def updateData (params : UpdateChatflowParams) : JsonObj :=
  let nameField : JsonObj :=
    match params.name with
    | some s => if strTruthy s then .cons "name" (.str s) .nil else .nil
    | none => .nil
  let flowDataField : JsonObj :=
    match params.flowData with
    | some fd => .cons "flowData" (.str (Json.stringifyCompact fd.toJson)) .nil
    | none => .nil
  let chatbotConfigField : JsonObj :=
    match params.chatbotConfig with
    | some c => .cons "chatbotConfig" (.str (Json.stringifyCompact (Json.obj c))) .nil
    | none => .nil
  nameField.append (flowDataField.append chatbotConfigField)

/-- The `api.request` invocations the eight API-backed dispatchers
make, one definition per dispatcher. -/
def listChatflowsCall : ApiCall := ⟨"GET", "/chatflows", none⟩

/-- `GET /chatflows/{id}` with the id interpolated raw. -/
def getChatflowCall (chatflowId : String) : ApiCall :=
  ⟨"GET", "/chatflows/" ++ chatflowId, none⟩

/-- `POST /chatflows` with the shaped creation payload. -/
def createChatflowCall (params : CreateChatflowParams) : ApiCall :=
  ⟨"POST", "/chatflows", some (Json.obj (createChatflowPayload params))⟩

/-- `PUT /chatflows/{id}` with the shaped update payload. -/
def updateChatflowCall (params : UpdateChatflowParams) : ApiCall :=
  ⟨"PUT", "/chatflows/" ++ params.chatflowId, some (Json.obj (updateData params))⟩

/-- `DELETE /chatflows/{id}` with the id interpolated raw. -/
def deleteChatflowCall (chatflowId : String) : ApiCall :=
  ⟨"DELETE", "/chatflows/" ++ chatflowId, none⟩

/-- `GET /nodes`. -/
def listNodesCall : ApiCall := ⟨"GET", "/nodes", none⟩

/-- `GET /nodes/category/{category}` with the category
percent-encoded. -/
def nodesByCategoryCall (category : String) : ApiCall :=
  ⟨"GET", "/nodes/category/" ++ encodeURIComponent category, none⟩

/-- `GET /nodes/{name}` with the node name percent-encoded. -/
def getNodeCall (nodeName : String) : ApiCall :=
  ⟨"GET", "/nodes/" ++ encodeURIComponent nodeName, none⟩

/-- The synthesized object `{success: true, deleted: chatflowId,
result}` that `handleDeleteChatflow` wraps on success. -/
def deleteSuccessBody (chatflowId : String) (result : Json) : Json :=
  Json.obj (.cons "success" (.bool true)
    (.cons "deleted" (.str chatflowId)
      (.cons "result" result .nil)))

/-- `handleListChatflows`. -/
def handleListChatflows (api : ApiCall → Except String Json) : ToolResponse :=
  match api listChatflowsCall with
  | .ok chatflows => successResponse chatflows
  | .error message => errorResponse ("Error listing chatflows: " ++ message)

/-- `handleGetChatflow`. -/
def handleGetChatflow (api : ApiCall → Except String Json) (chatflowId : String) : ToolResponse :=
  match api (getChatflowCall chatflowId) with
  | .ok chatflow => successResponse chatflow
  | .error message => errorResponse ("Error getting chatflow: " ++ message)

/-- `handleCreateChatflow`. -/
def handleCreateChatflow (api : ApiCall → Except String Json)
    (params : CreateChatflowParams) : ToolResponse :=
  match api (createChatflowCall params) with
  | .ok chatflow => successResponse chatflow
  | .error message => errorResponse ("Error creating chatflow: " ++ message)

/-- `handleUpdateChatflow`. -/
def handleUpdateChatflow (api : ApiCall → Except String Json)
    (params : UpdateChatflowParams) : ToolResponse :=
  match api (updateChatflowCall params) with
  | .ok chatflow => successResponse chatflow
  | .error message => errorResponse ("Error updating chatflow: " ++ message)

/-- `handleDeleteChatflow`: on success the response wraps the
synthesized `{success, deleted, result}` object, not the raw delete
response alone. -/
def handleDeleteChatflow (api : ApiCall → Except String Json) (chatflowId : String) : ToolResponse :=
  match api (deleteChatflowCall chatflowId) with
  | .ok result => successResponse (deleteSuccessBody chatflowId result)
  | .error message => errorResponse ("Error deleting chatflow: " ++ message)

/-- `handleListNodes`. -/
def handleListNodes (api : ApiCall → Except String Json) : ToolResponse :=
  match api listNodesCall with
  | .ok nodes => successResponse nodes
  | .error message => errorResponse ("Error listing nodes: " ++ message)

/-- `handleGetNodesByCategory`. -/
def handleGetNodesByCategory (api : ApiCall → Except String Json)
    (category : String) : ToolResponse :=
  match api (nodesByCategoryCall category) with
  | .ok nodes => successResponse nodes
  | .error message => errorResponse ("Error getting nodes by category: " ++ message)

/-- `handleGetNode`. -/
def handleGetNode (api : ApiCall → Except String Json) (nodeName : String) : ToolResponse :=
  match api (getNodeCall nodeName) with
  | .ok node => successResponse node
  | .error message => errorResponse ("Error getting node: " ++ message)


/-- Substring containment, stated on the underlying character lists. -/
def strContains (s pat : String) : Prop := pat.data <:+: s.data

/-- Exhibiting a decomposition proves containment. -/
theorem strContains_intro (pre pat suf s : String) (h : s = pre ++ pat ++ suf) :
    strContains s pat := by
  refine ⟨pre.data, suf.data, ?_⟩
  rw [h]
  simp [String.data_append, List.append_assoc]

/-- Every dispatcher result is one of the two shared response
constructors. -/
def wellFormedResponse (r : ToolResponse) : Prop :=
  (∃ d, r = successResponse d) ∨ (∃ m, r = errorResponse m)

/-- C3: each of the four execution dispatchers builds its
`createPrediction` argument object with `streaming` set to `false`,
whatever the caller-supplied parameters are. -/
theorem prediction_streaming_forced :
    (∀ params : CreatePredictionParams,
      (createPredictionArgs params).streaming = some false) ∧
    (∀ params : CreatePredictionWithHistoryParams,
      (createPredictionWithHistoryArgs params).streaming = some false) ∧
    (∀ params : CreatePredictionWithFilesParams,
      (createPredictionWithFilesArgs params).streaming = some false) ∧
    (∀ params : CreatePredictionWithLeadParams,
      (createPredictionWithLeadArgs params).streaming = some false) :=
  ⟨fun _ => rfl, fun _ => rfl, fun _ => rfl, fun _ => rfl⟩

/-- C4: the transport request always carries
`Content-Type: application/json`; with an empty `apiKey` it carries no
`Authorization` header, and with a non-empty `apiKey` it carries
exactly `Authorization: Bearer {apiKey}`. -/
theorem transport_headers (config : FlowiseApiConfig) (method endpoint : String)
    (body : Option Json) :
    (config.apiKey = "" →
      (buildFetchRequest config method endpoint body).headers =
        [("Content-Type", "application/json")]) ∧
    (config.apiKey ≠ "" →
      (buildFetchRequest config method endpoint body).headers =
        [("Content-Type", "application/json"),
         ("Authorization", "Bearer " ++ config.apiKey)]) := by
  constructor
  · intro h
    simp [buildFetchRequest, strTruthy, h]
  · intro h
    simp [buildFetchRequest, strTruthy, h]

/-- Witness for `transport_headers` at concrete configurations. -/
theorem transport_headers_witness :
    (buildFetchRequest ⟨"http://localhost:3000", ""⟩ "GET" "/chatflows" none).headers =
      [("Content-Type", "application/json")] ∧
    (buildFetchRequest ⟨"http://localhost:3000", "secret"⟩ "GET" "/chatflows" none).headers =
      [("Content-Type", "application/json"), ("Authorization", "Bearer " ++ "secret")] :=
  ⟨(transport_headers ⟨"http://localhost:3000", ""⟩ "GET" "/chatflows" none).1 rfl,
   (transport_headers ⟨"http://localhost:3000", "secret"⟩ "GET" "/chatflows" none).2
     (by decide)⟩

/-- C2 (amended): an omitted body sends no request body; a supplied
truthy body is sent as its exact compact JSON serialization; a
supplied falsy body (`false`, `0`, `""`, `null`) sends no body, because
the source guards with `body ? JSON.stringify(body) : undefined`. -/
theorem transport_body (config : FlowiseApiConfig) (method endpoint : String) :
    ((buildFetchRequest config method endpoint none).body = none) ∧
    (∀ v : Json, v.truthy = true →
      (buildFetchRequest config method endpoint (some v)).body =
        some (Json.stringifyCompact v)) ∧
    (∀ v : Json, v.truthy = false →
      (buildFetchRequest config method endpoint (some v)).body = none) := by
  refine ⟨rfl, ?_, ?_⟩ <;> intro v h <;> simp [buildFetchRequest, h]

/-- Witness for `transport_body`: the empty update payload `{}` is an
object, hence truthy, and is serialized and sent. -/
theorem transport_body_witness :
    (buildFetchRequest ⟨"http://localhost:3000", ""⟩ "PUT" "/chatflows/123"
        (some (Json.obj JsonObj.nil))).body =
      some (Json.stringifyCompact (Json.obj JsonObj.nil)) :=
  (transport_body ⟨"http://localhost:3000", ""⟩ "PUT" "/chatflows/123").2.1
    (Json.obj JsonObj.nil) rfl

/-- C2 counterexample: the JSON-serializable value `false` is supplied
as the body, its JSON serialization is the non-empty string "false",
yet no HTTP body is sent. -/
theorem transport_body_falsy_counterexample :
    (buildFetchRequest ⟨"http://localhost:3000", ""⟩ "POST" "/chatflows"
        (some (Json.bool false))).body = none ∧
    Json.stringifyCompact (Json.bool false) = "false" :=
  ⟨rfl, rfl⟩

/-- C8: node-discovery endpoints percent-encode their path parameter
with `encodeURIComponent`; in particular the two documented example
paths are produced. -/
theorem node_discovery_encoding :
    (∀ category : String,
      nodesByCategoryCall category =
        ⟨"GET", "/nodes/category/" ++ encodeURIComponent category, none⟩) ∧
    (∀ nodeName : String,
      getNodeCall nodeName = ⟨"GET", "/nodes/" ++ encodeURIComponent nodeName, none⟩) ∧
    (nodesByCategoryCall "Tools & Utilities").endpoint =
      "/nodes/category/Tools%20%26%20Utilities" ∧
    (getNodeCall "custom/node").endpoint = "/nodes/custom%2Fnode" :=
  ⟨fun _ => rfl, fun _ => rfl, rfl, rfl⟩

/-- C9: the chatflow-id CRUD endpoints interpolate the id raw, with no
percent-encoding, so an id containing `/` produces a path different
from the encoded one. -/
theorem chatflow_id_raw_interpolation :
    (∀ chatflowId : String,
      (getChatflowCall chatflowId).endpoint = "/chatflows/" ++ chatflowId) ∧
    (∀ params : UpdateChatflowParams,
      (updateChatflowCall params).endpoint = "/chatflows/" ++ params.chatflowId) ∧
    (∀ chatflowId : String,
      (deleteChatflowCall chatflowId).endpoint = "/chatflows/" ++ chatflowId) ∧
    (getChatflowCall "a/b").endpoint = "/chatflows/a/b" ∧
    "/chatflows/a/b" ≠ "/chatflows/" ++ encodeURIComponent "a/b" :=
  ⟨fun _ => rfl, fun _ => rfl, fun _ => rfl, rfl, by decide⟩

/-- C6: every dispatcher catches any error thrown by its downstream
client and returns the fixed operation prefix followed by the thrown
error's message, wrapped by `errorResponse` (single text item,
`isError: true`); no error escapes. -/
theorem dispatcher_error_boundary :
    (∀ m params, handleCreatePrediction (fun _ => Except.error m) params =
      errorResponse ("Error running chatflow: " ++ m)) ∧
    (∀ m params, handleCreatePredictionWithHistory (fun _ => Except.error m) params =
      errorResponse ("Error running chatflow: " ++ m)) ∧
    (∀ m params, handleCreatePredictionWithFiles (fun _ => Except.error m) params =
      errorResponse ("Error running chatflow: " ++ m)) ∧
    (∀ m params, handleCreatePredictionWithLead (fun _ => Except.error m) params =
      errorResponse ("Error running chatflow: " ++ m)) ∧
    (∀ m, handleListChatflows (fun _ => Except.error m) =
      errorResponse ("Error listing chatflows: " ++ m)) ∧
    (∀ m chatflowId, handleGetChatflow (fun _ => Except.error m) chatflowId =
      errorResponse ("Error getting chatflow: " ++ m)) ∧
    (∀ m params, handleCreateChatflow (fun _ => Except.error m) params =
      errorResponse ("Error creating chatflow: " ++ m)) ∧
    (∀ m params, handleUpdateChatflow (fun _ => Except.error m) params =
      errorResponse ("Error updating chatflow: " ++ m)) ∧
    (∀ m chatflowId, handleDeleteChatflow (fun _ => Except.error m) chatflowId =
      errorResponse ("Error deleting chatflow: " ++ m)) ∧
    (∀ m, handleListNodes (fun _ => Except.error m) =
      errorResponse ("Error listing nodes: " ++ m)) ∧
    (∀ m category, handleGetNodesByCategory (fun _ => Except.error m) category =
      errorResponse ("Error getting nodes by category: " ++ m)) ∧
    (∀ m nodeName, handleGetNode (fun _ => Except.error m) nodeName =
      errorResponse ("Error getting node: " ++ m)) ∧
    (∀ m, errorResponse m =
      { content := [{ type := "text", text := m }], isError := some true }) :=
  ⟨fun _ _ => rfl, fun _ _ => rfl, fun _ _ => rfl, fun _ _ => rfl,
   fun _ => rfl, fun _ _ => rfl, fun _ _ => rfl, fun _ _ => rfl,
   fun _ _ => rfl, fun _ => rfl, fun _ _ => rfl, fun _ _ => rfl,
   fun _ => rfl⟩

/-- C10: every response of every dispatcher is built by one of the two
shared constructors; `successResponse` carries exactly one text item
holding the 2-space pretty-printed JSON with the `isError` field
absent, and `errorResponse` carries exactly one text item with
`isError` set to true. -/
theorem dispatcher_response_shape :
    (∀ d, (successResponse d).content =
        [{ type := "text", text := Json.stringifyPretty2 d }] ∧
      (successResponse d).isError = none) ∧
    (∀ m, (errorResponse m).content = [{ type := "text", text := m }] ∧
      (errorResponse m).isError = some true) ∧
    (∀ client params, wellFormedResponse (handleCreatePrediction client params)) ∧
    (∀ client params, wellFormedResponse (handleCreatePredictionWithHistory client params)) ∧
    (∀ client params, wellFormedResponse (handleCreatePredictionWithFiles client params)) ∧
    (∀ client params, wellFormedResponse (handleCreatePredictionWithLead client params)) ∧
    (∀ api, wellFormedResponse (handleListChatflows api)) ∧
    (∀ api chatflowId, wellFormedResponse (handleGetChatflow api chatflowId)) ∧
    (∀ api params, wellFormedResponse (handleCreateChatflow api params)) ∧
    (∀ api params, wellFormedResponse (handleUpdateChatflow api params)) ∧
    (∀ api chatflowId, wellFormedResponse (handleDeleteChatflow api chatflowId)) ∧
    (∀ api, wellFormedResponse (handleListNodes api)) ∧
    (∀ api category, wellFormedResponse (handleGetNodesByCategory api category)) ∧
    (∀ api nodeName, wellFormedResponse (handleGetNode api nodeName)) := by
  refine ⟨fun d => ⟨rfl, rfl⟩, fun m => ⟨rfl, rfl⟩, ?_, ?_, ?_, ?_, ?_, ?_, ?_, ?_, ?_, ?_, ?_, ?_⟩
  · intro client params
    unfold handleCreatePrediction
    cases client (createPredictionArgs params) with
    | error m => exact Or.inr ⟨_, rfl⟩
    | ok v => exact Or.inl ⟨_, rfl⟩
  · intro client params
    unfold handleCreatePredictionWithHistory
    cases client (createPredictionWithHistoryArgs params) with
    | error m => exact Or.inr ⟨_, rfl⟩
    | ok v => exact Or.inl ⟨_, rfl⟩
  · intro client params
    unfold handleCreatePredictionWithFiles
    cases client (createPredictionWithFilesArgs params) with
    | error m => exact Or.inr ⟨_, rfl⟩
    | ok v => exact Or.inl ⟨_, rfl⟩
  · intro client params
    unfold handleCreatePredictionWithLead
    cases client (createPredictionWithLeadArgs params) with
    | error m => exact Or.inr ⟨_, rfl⟩
    | ok v => exact Or.inl ⟨_, rfl⟩
  · intro api
    unfold handleListChatflows
    cases api listChatflowsCall with
    | error m => exact Or.inr ⟨_, rfl⟩
    | ok v => exact Or.inl ⟨_, rfl⟩
  · intro api chatflowId
    unfold handleGetChatflow
    cases api (getChatflowCall chatflowId) with
    | error m => exact Or.inr ⟨_, rfl⟩
    | ok v => exact Or.inl ⟨_, rfl⟩
  · intro api params
    unfold handleCreateChatflow
    cases api (createChatflowCall params) with
    | error m => exact Or.inr ⟨_, rfl⟩
    | ok v => exact Or.inl ⟨_, rfl⟩
  · intro api params
    unfold handleUpdateChatflow
    cases api (updateChatflowCall params) with
    | error m => exact Or.inr ⟨_, rfl⟩
    | ok v => exact Or.inl ⟨_, rfl⟩
  · intro api chatflowId
    unfold handleDeleteChatflow
    cases api (deleteChatflowCall chatflowId) with
    | error m => exact Or.inr ⟨_, rfl⟩
    | ok v => exact Or.inl ⟨_, rfl⟩
  · intro api
    unfold handleListNodes
    cases api listNodesCall with
    | error m => exact Or.inr ⟨_, rfl⟩
    | ok v => exact Or.inl ⟨_, rfl⟩
  · intro api category
    unfold handleGetNodesByCategory
    cases api (nodesByCategoryCall category) with
    | error m => exact Or.inr ⟨_, rfl⟩
    | ok v => exact Or.inl ⟨_, rfl⟩
  · intro api nodeName
    unfold handleGetNode
    cases api (getNodeCall nodeName) with
    | error m => exact Or.inr ⟨_, rfl⟩
    | ok v => exact Or.inl ⟨_, rfl⟩

/-- C5: the `create_chatflow` POST payload embeds `flowData` as its
compact JSON serialization, defaults `type` to "CHATFLOW" when absent,
embeds `chatbotConfig` as a JSON string exactly when supplied and
otherwise contains no such field at all. -/
theorem create_chatflow_payload_shape (params : CreateChatflowParams) :
    (createChatflowCall params).method = "POST" ∧
    (createChatflowCall params).endpoint = "/chatflows" ∧
    (createChatflowCall params).body = some (Json.obj (createChatflowPayload params)) ∧
    (createChatflowPayload params).lookup "name" = some (Json.str params.name) ∧
    (createChatflowPayload params).lookup "flowData" =
      some (Json.str (Json.stringifyCompact params.flowData.toJson)) ∧
    (createChatflowPayload params).lookup "type" =
      some (Json.str (match params.type with
                      | some t => t.toStr
                      | none => "CHATFLOW")) ∧
    (createChatflowPayload params).lookup "chatbotConfig" =
      (match params.chatbotConfig with
       | some c => some (Json.str (Json.stringifyCompact (Json.obj c)))
       | none => none) ∧
    (createChatflowPayload params).keys =
      ["name", "flowData", "type"] ++
        (match params.chatbotConfig with
         | some _ => ["chatbotConfig"]
         | none => []) := by
  rcases params with ⟨name, fd, ty, cc⟩
  cases cc <;> cases ty <;>
    simp [createChatflowCall, createChatflowPayload, JsonObj.lookup, JsonObj.keys]

/-- C1 (amended): the `update_chatflow` PUT payload includes exactly
the supplied-and-truthy fields among name, flowData and chatbotConfig,
the structured ones JSON-stringified; a supplied object field is
always included (objects are truthy), but a supplied falsy name — the
empty string — is omitted, and supplying nothing yields the empty
payload object. -/
theorem update_chatflow_payload_shape (params : UpdateChatflowParams) :
    (updateChatflowCall params).method = "PUT" ∧
    (updateChatflowCall params).endpoint = "/chatflows/" ++ params.chatflowId ∧
    (updateChatflowCall params).body = some (Json.obj (updateData params)) ∧
    (updateData params).lookup "name" =
      (match params.name with
       | some s => if s = "" then none else some (Json.str s)
       | none => none) ∧
    (updateData params).lookup "flowData" =
      (match params.flowData with
       | some fd => some (Json.str (Json.stringifyCompact fd.toJson))
       | none => none) ∧
    (updateData params).lookup "chatbotConfig" =
      (match params.chatbotConfig with
       | some c => some (Json.str (Json.stringifyCompact (Json.obj c)))
       | none => none) ∧
    (updateData params).keys =
      ((match params.name with
        | some s => if s = "" then [] else ["name"]
        | none => []) ++
       (match params.flowData with
        | some _ => ["flowData"]
        | none => []) ++
       (match params.chatbotConfig with
        | some _ => ["chatbotConfig"]
        | none => [])) ∧
    (params.name = none → params.flowData = none → params.chatbotConfig = none →
      updateData params = JsonObj.nil) := by
  rcases params with ⟨cid, nm, fd, cc⟩
  cases nm with
  | none =>
      cases fd <;> cases cc <;>
        simp [updateChatflowCall, updateData, JsonObj.append, JsonObj.lookup, JsonObj.keys]
  | some s =>
      by_cases hs : s = "" <;> cases fd <;> cases cc <;>
        simp [updateChatflowCall, updateData, JsonObj.append, JsonObj.lookup, JsonObj.keys,
          strTruthy, hs]

/-- Witness for `update_chatflow_payload_shape`: supplying no optional
field yields the empty payload object. -/
theorem update_chatflow_payload_shape_witness :
    updateData ⟨"abc123", none, none, none⟩ = JsonObj.nil :=
  (update_chatflow_payload_shape ⟨"abc123", none, none, none⟩).2.2.2.2.2.2.2 rfl rfl rfl

/-- C1 counterexample: the caller supplies `name` as the empty string,
yet the payload contains no `name` field at all — the truthy-style
presence check `if (params.name)` drops the falsy value, contradicting
the claim that every supplied field is included. -/
theorem update_chatflow_empty_name_counterexample :
    (updateData ⟨"123", some "", none, none⟩).lookup "name" = none ∧
    updateData ⟨"123", some "", none, none⟩ = JsonObj.nil :=
  ⟨rfl, rfl⟩

/-- C7 (amended): on DELETE success the tool response is the success
wrapping of `{success: true, deleted: chatflowId, result}`; its
pretty-printed text therefore contains `"success": true` and
`"deleted": ` followed by the JSON string literal for the id — which
is the id itself between plain quotes whenever the id needs no JSON
escaping, as the concrete id "123" illustrates. -/
theorem delete_chatflow_success_shape (chatflowId : String) (result : Json) :
    handleDeleteChatflow (fun _ => Except.ok result) chatflowId =
      successResponse (deleteSuccessBody chatflowId result) ∧
    strContains (Json.stringifyPretty2 (deleteSuccessBody chatflowId result))
      "\"success\": true" ∧
    strContains (Json.stringifyPretty2 (deleteSuccessBody chatflowId result))
      ("\"deleted\": " ++ quoteStr chatflowId) ∧
    strContains (Json.stringifyPretty2 (deleteSuccessBody "123" result))
      "\"deleted\": \"123\"" := by
  refine ⟨rfl, ?_, ?_, ?_⟩
  · refine strContains_intro "\x7b\n  " _
      (",\n  \"deleted\": " ++ quoteStr chatflowId ++
        (",\n  \"result\": " ++ Json.render result "  " ++ "\n\x7d")) _ ?_
    apply String.ext
    simp [Json.stringifyPretty2, deleteSuccessBody, Json.render, JsonObj.renderFields,
      JsonObj.renderMore, JsonObj.isNil, String.data_append, List.append_assoc]
    rfl
  · refine strContains_intro "\x7b\n  \"success\": true,\n  " _
      (",\n  \"result\": " ++ Json.render result "  " ++ "\n\x7d") _ ?_
    apply String.ext
    simp [Json.stringifyPretty2, deleteSuccessBody, Json.render, JsonObj.renderFields,
      JsonObj.renderMore, JsonObj.isNil, String.data_append, List.append_assoc]
    rfl
  · refine strContains_intro "\x7b\n  \"success\": true,\n  " _
      (",\n  \"result\": " ++ Json.render result "  " ++ "\n\x7d") _ ?_
    apply String.ext
    simp [Json.stringifyPretty2, deleteSuccessBody, Json.render, JsonObj.renderFields,
      JsonObj.renderMore, JsonObj.isNil, String.data_append, List.append_assoc]
    rfl

/-- C7 counterexample: for the chatflow id `a"b` — a legal string
input — the success text contains the escaped form `"deleted": "a\"b"`
and therefore does not contain the literal `"deleted": "a"b"` the
claim asserts for every id. -/
theorem delete_chatflow_escaped_id_counterexample :
    ¬ strContains (Json.stringifyPretty2 (deleteSuccessBody "a\"b" Json.null))
        ("\"deleted\": \"a\"b\"") := by
  unfold strContains
  decide

/-- Witness for `chatflow_id_raw_interpolation` at the concrete id
containing a reserved character. -/
theorem chatflow_id_raw_interpolation_witness :
    (getChatflowCall "a/b").endpoint = "/chatflows/a/b" :=
  chatflow_id_raw_interpolation.2.2.2.1
